import Mathlib

/-!
Shallow embedding of `src/server.py` (Waveshare Rover Flask edge controller).

Modelling choices:
* Python floats are modelled as rationals (`ℚ`); all arithmetic the handlers
  perform (`distance_cm / 10.0`, `degree * (0.65/90)`) is exact on the values
  involved.
* The global `ser` handle is `Option SerialPort`: `none` models `ser is None`
  (open failed or never attempted), `some s` carries the pyserial handle whose
  `is_open` flag the code consults.
* The outcome of one `ser.write(...)` call is an oracle `WriteOutcome`:
  it succeeds, raises `serial.SerialException`, or raises another exception —
  the three cases `send_motor_command_uart` distinguishes.
* Observable side effects are collected in a trace of `Event`s:
  `Event.uartWrite l r` records one `ser.write` call of `commandBytes l r`,
  `Event.sleep d` records `time.sleep(d)`, `Event.closePort` records
  `ser.close()`.
* `time.sleep` with a negative argument raises `ValueError` in Python; a
  handler reaching that point is modelled as `HandlerOutcome.pyError`
  (Flask turns the unhandled exception into an HTTP 500 error page, not a
  JSON response).
-/

namespace Server

/-- Result of one underlying `ser.write` call, as observable by the caller. -/
inductive WriteOutcome where
  | ok : WriteOutcome
  | serialExc (e : String) : WriteOutcome
  | otherExc (e : String) : WriteOutcome
deriving DecidableEq

/-- The pyserial handle state the code consults (`ser.is_open`). -/
structure SerialPort where
  is_open : Bool
deriving DecidableEq

/-- Observable side effects of the handlers. -/
inductive Event where
  | uartWrite (l r : ℚ) : Event
  | sleep (d : ℚ) : Event
  | closePort : Event
deriving DecidableEq

/-- `ROBOT_SPEED_CM_PER_SECOND = 10.0` (server.py line 25). -/
def ROBOT_SPEED_CM_PER_SECOND : ℚ := 10

/-- `DEFAULT_DRIVE_SPEED = 0.3` (server.py line 26). -/
def DEFAULT_DRIVE_SPEED : ℚ := 3/10

/-- A JSON value as this program produces them: a string, or a numeric literal
carried as its Python `repr` text. -/
inductive PyJson where
  | str (s : String) : PyJson
  | numLit (s : String) : PyJson

/-- Serialization of one JSON atom. The only string values this program dumps
(`"1"` and the keys) contain no characters needing escapes. -/
def dumpAtom : PyJson → String
  | .str s => "\"" ++ s ++ "\""
  | .numLit s => s

/-- Join a list of strings with the default json.dumps item separator
`", "`. -/
def commaJoin : List String → String
  | [] => ""
  | [s] => s
  | s :: s2 :: rest => s ++ ", " ++ commaJoin (s2 :: rest)

/-- `json.dumps` on a dict with string keys: Python 3.7+ preserves insertion
order, and the default separators are `", "` between items and `": "` between
a key and its value. -/
def jsonDumps (kvs : List (String × PyJson)) : String :=
  "\x7b" ++
    commaJoin (kvs.map (fun kv => "\"" ++ kv.1 ++ "\": " ++ dumpAtom kv.2)) ++
  "\x7d"

/-- `repr` of the Python float constants this program passes to `json.dumps`
(`float(0.3)`, `float(-0.3)`, `float(0.0)`); other rationals do not occur in
any send the program performs and are mapped to a placeholder. -/
def pyFloatRepr (q : ℚ) : String :=
  if q = 3/10 then "0.3"
  else if q = -(3/10) then "-0.3"
  else if q = 0 then "0.0"
  else "?"

/-- The JSON line `send_motor_command_uart` builds (server.py lines 66-72). -/
def commandJson (left_speed right_speed : ℚ) : String :=
  jsonDumps [("T", .str "1"),
             ("L", .numLit (pyFloatRepr left_speed)),
             ("R", .numLit (pyFloatRepr right_speed))]

/-- `command_bytes = (json_string + '\n').encode('utf-8')` (line 73): the exact
byte string handed to the single `ser.write` call. -/
def commandBytes (left_speed right_speed : ℚ) : String :=
  commandJson left_speed right_speed ++ "\n"

/-- `(success, message)` pair returned by `send_motor_command_uart`. -/
structure SendResult where
  success : Bool
  message : String
deriving DecidableEq

/-- `ser is None or not ser.is_open`, negated: whether the channel is usable. -/
def portOpen : Option SerialPort → Bool
  | none => false
  | some s => s.is_open

/-- `send_motor_command_uart(left_speed, right_speed)` (server.py lines 54-84),
given the channel state and the oracle for the one `ser.write` call.  Returns
the `(success, message)` pair together with the trace of side effects: the
`uartWrite` event records the single `ser.write(commandBytes ...)` call, which
is also made when the write subsequently raises. -/
def send_motor_command_uart (ser : Option SerialPort) (wb : WriteOutcome)
    (left_speed right_speed : ℚ) : SendResult × List Event :=
  if ¬ portOpen ser then
    (⟨false, "Serial port not open."⟩, [])
  else
    match wb with
    | .ok => (⟨true, "OK"⟩, [.uartWrite left_speed right_speed])
    | .serialExc e =>
        (⟨false, "Serial communication error: " ++ e⟩,
         [.uartWrite left_speed right_speed])
    | .otherExc e =>
        (⟨false, "Unexpected error: " ++ e⟩,
         [.uartWrite left_speed right_speed])

/-- A Flask JSON response: `jsonify({"status": ..., "message": ...}), code`. -/
structure HttpResponse where
  status : String
  message : String
  code : ℕ
deriving DecidableEq

/-- What a handler produces: a JSON response, or an unhandled Python exception
(which Flask reports as HTTP 500 without the handler's JSON shape). -/
inductive HandlerOutcome where
  | response (r : HttpResponse) : HandlerOutcome
  | pyError (e : String) : HandlerOutcome
deriving DecidableEq

/-- `time.sleep` raises this on a negative argument. -/
def sleepValueError : String := "ValueError: sleep length must be non-negative"

/-- `forward(distance_cm)` (server.py lines 106-128).  `startWb` and `stopWb`
are the oracles for the two potential `ser.write` calls. -/
def forward (ser : Option SerialPort) (startWb stopWb : WriteOutcome)
    (distance_cm : ℤ) : HandlerOutcome × List Event :=
  if distance_cm ≤ 0 then
    (.response ⟨"Error", "Distance must be positive", 400⟩, [])
  else
    let duration : ℚ := (distance_cm : ℚ) / ROBOT_SPEED_CM_PER_SECOND
    let startR := send_motor_command_uart ser startWb
        DEFAULT_DRIVE_SPEED DEFAULT_DRIVE_SPEED
    if startR.1.success = false then
      (.response ⟨"Error", "Failed to start: " ++ startR.1.message, 500⟩,
       startR.2)
    else if duration < 0 then
      (.pyError sleepValueError, startR.2)
    else
      let stopR := send_motor_command_uart ser stopWb 0 0
      if stopR.1.success then
        (.response ⟨"OK", "Moved forward " ++ toString distance_cm ++ " cm",
           200⟩,
         startR.2 ++ [.sleep duration] ++ stopR.2)
      else
        (.response ⟨"Error", "Failed to stop: " ++ stopR.1.message, 500⟩,
         startR.2 ++ [.sleep duration] ++ stopR.2)

/-- `backward(distance_cm)` (server.py lines 130-152). -/
def backward (ser : Option SerialPort) (startWb stopWb : WriteOutcome)
    (distance_cm : ℤ) : HandlerOutcome × List Event :=
  if distance_cm ≤ 0 then
    (.response ⟨"Error", "Distance must be positive", 400⟩, [])
  else
    let duration : ℚ := (distance_cm : ℚ) / ROBOT_SPEED_CM_PER_SECOND
    let startR := send_motor_command_uart ser startWb
        (-DEFAULT_DRIVE_SPEED) (-DEFAULT_DRIVE_SPEED)
    if startR.1.success = false then
      (.response ⟨"Error", "Failed to start: " ++ startR.1.message, 500⟩,
       startR.2)
    else if duration < 0 then
      (.pyError sleepValueError, startR.2)
    else
      let stopR := send_motor_command_uart ser stopWb 0 0
      if stopR.1.success then
        (.response ⟨"OK", "Moved backward " ++ toString distance_cm ++ " cm",
           200⟩,
         startR.2 ++ [.sleep duration] ++ stopR.2)
      else
        (.response ⟨"Error", "Failed to stop: " ++ stopR.1.message, 500⟩,
         startR.2 ++ [.sleep duration] ++ stopR.2)

/-- `left(degree)` (server.py lines 154-176): no validation of `degree`;
`duration = degree * (0.65/90)`; start speeds `(-0.3, 0.3)`. -/
def left (ser : Option SerialPort) (startWb stopWb : WriteOutcome)
    (degree : ℤ) : HandlerOutcome × List Event :=
  let duration : ℚ := (degree : ℚ) * (65/100 / 90)
  let startR := send_motor_command_uart ser startWb (-(3/10)) (3/10)
  if startR.1.success = false then
    (.response ⟨"Error", "Failed to start: " ++ startR.1.message, 500⟩,
     startR.2)
  else if duration < 0 then
    (.pyError sleepValueError, startR.2)
  else
    let stopR := send_motor_command_uart ser stopWb 0 0
    if stopR.1.success then
      (.response ⟨"OK", "Turned " ++ toString degree ++ " degrees", 200⟩,
       startR.2 ++ [.sleep duration] ++ stopR.2)
    else
      (.response ⟨"Error", "Failed to stop: " ++ stopR.1.message, 500⟩,
       startR.2 ++ [.sleep duration] ++ stopR.2)

/-- `right(degree)` (server.py lines 178-200): same as `left` with start
speeds `(0.3, -0.3)`. -/
def right (ser : Option SerialPort) (startWb stopWb : WriteOutcome)
    (degree : ℤ) : HandlerOutcome × List Event :=
  let duration : ℚ := (degree : ℚ) * (65/100 / 90)
  let startR := send_motor_command_uart ser startWb (3/10) (-(3/10))
  if startR.1.success = false then
    (.response ⟨"Error", "Failed to start: " ++ startR.1.message, 500⟩,
     startR.2)
  else if duration < 0 then
    (.pyError sleepValueError, startR.2)
  else
    let stopR := send_motor_command_uart ser stopWb 0 0
    if stopR.1.success then
      (.response ⟨"OK", "Turned " ++ toString degree ++ " degrees", 200⟩,
       startR.2 ++ [.sleep duration] ++ stopR.2)
    else
      (.response ⟨"Error", "Failed to stop: " ++ stopR.1.message, 500⟩,
       startR.2 ++ [.sleep duration] ++ stopR.2)

/-- `stop()` (server.py lines 202-210). -/
def stop (ser : Option SerialPort) (wb : WriteOutcome) :
    HandlerOutcome × List Event :=
  let r := send_motor_command_uart ser wb 0 0
  if r.1.success then
    (.response ⟨"OK", "Robot stopped", 200⟩, r.2)
  else
    (.response ⟨"Error", r.1.message, 500⟩, r.2)

/-- `cleanup_serial()` (server.py lines 89-94), registered once with
`atexit.register`: `if ser and ser.is_open: ser.close()`.  Returns the new
channel state and the trace (note: no UART send occurs here). -/
def cleanup_serial : Option SerialPort → Option SerialPort × List Event
  | none => (none, [])
  | some s => if s.is_open then (some ⟨false⟩, [.closePort]) else (some s, [])

/-- Whether a `send_motor_command_uart` call succeeds: the port must be open
and the write must not raise.  (Independent of the speeds.) -/
def sendSucceeds (ser : Option SerialPort) (wb : WriteOutcome) : Bool :=
  match wb with
  | .ok => portOpen ser
  | _ => false

/-- "The sequencer aborted before holding or stopping": the trace holds no
sleep and no Stop (0,0) command. -/
def noHoldNoStop (evs : List Event) : Prop :=
  Event.uartWrite 0 0 ∉ evs ∧ ∀ q : ℚ, Event.sleep q ∉ evs

/-- Whether a send succeeds depends only on the channel state and the write
outcome, not on the speeds. -/
theorem send_success_eq (ser : Option SerialPort) (wb : WriteOutcome)
    (l r : ℚ) :
    (send_motor_command_uart ser wb l r).1.success = sendSucceeds ser wb := by
  cases h : portOpen ser <;>
    cases wb <;> simp [send_motor_command_uart, sendSucceeds, h]

/-- The trace of a send: one write call when the port is open, else nothing. -/
theorem send_snd (ser : Option SerialPort) (wb : WriteOutcome) (l r : ℚ) :
    (send_motor_command_uart ser wb l r).2 =
      if portOpen ser then [.uartWrite l r] else [] := by
  cases h : portOpen ser <;>
    cases wb <;> simp [send_motor_command_uart, h]

/-- A send with a nonzero left speed never holds and never issues Stop. -/
theorem noHoldNoStop_send (ser : Option SerialPort) (wb : WriteOutcome)
    (l r : ℚ) (hl : l ≠ 0) :
    noHoldNoStop (send_motor_command_uart ser wb l r).2 := by
  rw [noHoldNoStop, send_snd]
  split
  · refine ⟨?_, ?_⟩
    · simp only [List.mem_singleton, Event.uartWrite.injEq, not_and]
      intro h
      exact absurd h.symm hl
    · intro q
      simp
  · simp

/-- String concatenation is associative. -/
theorem string_append_assoc (a b c : String) :
    a ++ b ++ c = a ++ (b ++ c) := by
  apply String.ext
  simp only [String.data_append, List.append_assoc]

/-- C1: for every distance d > 0, with the channel open and both writes
succeeding, `forward` sends a start command with both wheel speeds equal to
`DEFAULT_DRIVE_SPEED` (= 0.3), holds for exactly
`d / ROBOT_SPEED_CM_PER_SECOND` seconds (linear ratio 10 cm/s), then sends the
Stop command (0.0, 0.0), answering HTTP 200. -/
theorem C1_forward_start_hold_stop (ser : Option SerialPort) (d : ℤ)
    (hopen : portOpen ser = true) (hd : 0 < d) :
    forward ser .ok .ok d =
      (.response ⟨"OK", "Moved forward " ++ toString d ++ " cm", 200⟩,
       [.uartWrite DEFAULT_DRIVE_SPEED DEFAULT_DRIVE_SPEED,
        .sleep ((d : ℚ) / ROBOT_SPEED_CM_PER_SECOND),
        .uartWrite 0 0]) ∧
    DEFAULT_DRIVE_SPEED = 3/10 ∧ ROBOT_SPEED_CM_PER_SECOND = 10 := by
  refine ⟨?_, rfl, rfl⟩
  have hnle : ¬ d ≤ 0 := not_le.mpr hd
  have hdur : ¬ ((d : ℚ) / ROBOT_SPEED_CM_PER_SECOND < 0) := by
    rw [not_lt]
    apply div_nonneg
    · exact_mod_cast hd.le
    · norm_num [ROBOT_SPEED_CM_PER_SECOND]
  simp [forward, send_motor_command_uart, hopen, hnle, hdur]

/-- C1 witness: `Forward(25)` on an open channel sends (0.3, 0.3), holds for
exactly 25/10 = 2.5 seconds, then sends Stop. -/
theorem C1_forward_start_hold_stop_witness :
    portOpen (some ⟨true⟩) = true ∧ (0 : ℤ) < 25 ∧
    forward (some ⟨true⟩) .ok .ok 25 =
      (.response ⟨"OK", "Moved forward " ++ toString (25 : ℤ) ++ " cm", 200⟩,
       [.uartWrite DEFAULT_DRIVE_SPEED DEFAULT_DRIVE_SPEED,
        .sleep (((25 : ℤ) : ℚ) / ROBOT_SPEED_CM_PER_SECOND),
        .uartWrite 0 0]) ∧
    ((25 : ℤ) : ℚ) / ROBOT_SPEED_CM_PER_SECOND = 5/2 :=
  ⟨rfl, by decide,
   (C1_forward_start_hold_stop (some ⟨true⟩) 25 rfl (by decide)).1,
   by norm_num [ROBOT_SPEED_CM_PER_SECOND]⟩

/-- C2 counterexample: on an open channel, the shutdown cleanup closes the
port but its trace contains no UART send at all — in particular no Stop
command (0.0, 0.0) is attempted before closing, contrary to the claim. -/
theorem C2_counterexample :
    cleanup_serial (some ⟨true⟩) = (some ⟨false⟩, [Event.closePort]) ∧
    Event.uartWrite 0 0 ∉ (cleanup_serial (some ⟨true⟩)).2 := by
  refine ⟨rfl, ?_⟩
  simp [cleanup_serial]

/-- C2 (amended): at process shutdown the cleanup closes the channel exactly
once when it is open (and is a no-op otherwise, leaving the port non-open
either way), but it does NOT attempt to send a Stop command before closing:
its trace never contains a UART write. -/
theorem C2_cleanup_closes_once_no_stop (s : Option SerialPort) (l r : ℚ) :
    Event.uartWrite l r ∉ (cleanup_serial s).2 ∧
    (cleanup_serial s).2.count Event.closePort =
      (if portOpen s then 1 else 0) ∧
    portOpen (cleanup_serial s).1 = false := by
  match s with
  | none => simp [cleanup_serial, portOpen]
  | some ⟨b⟩ => cases b <;> simp [cleanup_serial, portOpen]

/-- C3: for every d ≤ 0, both `forward` and `backward` answer HTTP 400
("Distance must be positive") with an empty trace: no UART write, no sleep. -/
theorem C3_nonpositive_distance_rejected (ser : Option SerialPort)
    (swb twb : WriteOutcome) (d : ℤ) (hd : d ≤ 0) :
    forward ser swb twb d =
      (.response ⟨"Error", "Distance must be positive", 400⟩, []) ∧
    backward ser swb twb d =
      (.response ⟨"Error", "Distance must be positive", 400⟩, []) := by
  constructor <;> simp [forward, backward, hd]

/-- C3 witness: `Forward(0)` is rejected with HTTP 400 and an empty trace. -/
theorem C3_nonpositive_distance_rejected_witness :
    (0 : ℤ) ≤ 0 ∧
    forward (some ⟨true⟩) .ok .ok 0 =
      (.response ⟨"Error", "Distance must be positive", 400⟩, []) :=
  ⟨le_refl 0,
   (C3_nonpositive_distance_rejected (some ⟨true⟩) .ok .ok 0 (le_refl 0)).1⟩

/-- C4 counterexample: `left` with degree −90 on an open channel is NOT
rejected with HTTP 400 before any hardware interaction: the handler sends the
start command (−0.3, 0.3) and then raises ValueError from the negative-length
sleep (its trace is nonempty and its outcome is not a 400 response). -/
theorem C4_counterexample :
    left (some ⟨true⟩) .ok .ok (-90) =
      (.pyError sleepValueError, [.uartWrite (-(3/10)) (3/10)]) ∧
    (left (some ⟨true⟩) .ok .ok (-90)).2 ≠ [] ∧
    (left (some ⟨true⟩) .ok .ok (-90)).1 ≠
      .response ⟨"Error", "Distance must be positive", 400⟩ := by
  have hq : (((-90 : ℤ) : ℚ)) * (65/100 / 90) < 0 := by norm_num
  have hEq : left (some ⟨true⟩) .ok .ok (-90) =
      (.pyError sleepValueError, [.uartWrite (-(3/10)) (3/10)]) := by
    simp [left, send_motor_command_uart, portOpen, hq]
  refine ⟨hEq, ?_, ?_⟩ <;> rw [hEq] <;> simp

/-- C4 (amended): a degree of exactly 0 is valid for both turn handlers and
produces a start send, a hold of duration 0, then a Stop send (two sends
total); but a degree strictly less than 0 is NOT rejected with
InvalidArgument: the handler performs the start send and then fails with an
unhandled ValueError from the negative-duration sleep, never sending Stop. -/
theorem C4_turn_zero_valid_negative_crashes (ser : Option SerialPort)
    (deg : ℤ) (hopen : portOpen ser = true) (hneg : deg < 0) :
    left ser .ok .ok 0 =
      (.response ⟨"OK", "Turned " ++ toString (0 : ℤ) ++ " degrees", 200⟩,
       [.uartWrite (-(3/10)) (3/10), .sleep 0, .uartWrite 0 0]) ∧
    right ser .ok .ok 0 =
      (.response ⟨"OK", "Turned " ++ toString (0 : ℤ) ++ " degrees", 200⟩,
       [.uartWrite (3/10) (-(3/10)), .sleep 0, .uartWrite 0 0]) ∧
    left ser .ok .ok deg =
      (.pyError sleepValueError, [.uartWrite (-(3/10)) (3/10)]) ∧
    right ser .ok .ok deg =
      (.pyError sleepValueError, [.uartWrite (3/10) (-(3/10))]) := by
  have hq : ((deg : ℚ)) * (65/100 / 90) < 0 := by
    apply mul_neg_of_neg_of_pos
    · exact_mod_cast hneg
    · norm_num
  refine ⟨?_, ?_, ?_, ?_⟩ <;>
    simp [left, right, send_motor_command_uart, hopen, hq]

/-- C4 witness: instantiation at degree −90 on an open channel. -/
theorem C4_turn_zero_valid_negative_crashes_witness :
    portOpen (some ⟨true⟩) = true ∧ (-90 : ℤ) < 0 ∧
    left (some ⟨true⟩) .ok .ok 0 =
      (.response ⟨"OK", "Turned " ++ toString (0 : ℤ) ++ " degrees", 200⟩,
       [.uartWrite (-(3/10)) (3/10), .sleep 0, .uartWrite 0 0]) ∧
    left (some ⟨true⟩) .ok .ok (-90) =
      (.pyError sleepValueError, [.uartWrite (-(3/10)) (3/10)]) := by
  have h := C4_turn_zero_valid_negative_crashes (some ⟨true⟩) (-90) rfl
    (by decide)
  exact ⟨rfl, by decide, h.1, h.2.2.1⟩

/-- C5: for every timed motion handler (`forward`, `backward`, `left`,
`right`), if the start send fails the handler aborts immediately: it answers
HTTP 500 with a "Failed to start: ..." message, its trace is exactly the
trace of the failed start send, and no sleep occurs and no Stop command
(0.0, 0.0) is ever sent. -/
theorem C5_start_failure_aborts (ser : Option SerialPort)
    (startWb stopWb : WriteOutcome) (d deg : ℤ) (hd : 0 < d)
    (hfail : sendSucceeds ser startWb = false) :
    (∃ m, forward ser startWb stopWb d =
       (.response ⟨"Error", "Failed to start: " ++ m, 500⟩,
        (send_motor_command_uart ser startWb
          DEFAULT_DRIVE_SPEED DEFAULT_DRIVE_SPEED).2)) ∧
    (∃ m, backward ser startWb stopWb d =
       (.response ⟨"Error", "Failed to start: " ++ m, 500⟩,
        (send_motor_command_uart ser startWb
          (-DEFAULT_DRIVE_SPEED) (-DEFAULT_DRIVE_SPEED)).2)) ∧
    (∃ m, left ser startWb stopWb deg =
       (.response ⟨"Error", "Failed to start: " ++ m, 500⟩,
        (send_motor_command_uart ser startWb (-(3/10)) (3/10)).2)) ∧
    (∃ m, right ser startWb stopWb deg =
       (.response ⟨"Error", "Failed to start: " ++ m, 500⟩,
        (send_motor_command_uart ser startWb (3/10) (-(3/10))).2)) ∧
    noHoldNoStop (forward ser startWb stopWb d).2 ∧
    noHoldNoStop (backward ser startWb stopWb d).2 ∧
    noHoldNoStop (left ser startWb stopWb deg).2 ∧
    noHoldNoStop (right ser startWb stopWb deg).2 := by
  have hnle : ¬ d ≤ 0 := not_le.mpr hd
  have hf := fun (l r : ℚ) => send_success_eq ser startWb l r
  have h1 : forward ser startWb stopWb d =
      (.response ⟨"Error", "Failed to start: " ++
         (send_motor_command_uart ser startWb
           DEFAULT_DRIVE_SPEED DEFAULT_DRIVE_SPEED).1.message, 500⟩,
       (send_motor_command_uart ser startWb
         DEFAULT_DRIVE_SPEED DEFAULT_DRIVE_SPEED).2) := by
    simp [forward, hnle, hf, hfail]
  have h2 : backward ser startWb stopWb d =
      (.response ⟨"Error", "Failed to start: " ++
         (send_motor_command_uart ser startWb
           (-DEFAULT_DRIVE_SPEED) (-DEFAULT_DRIVE_SPEED)).1.message, 500⟩,
       (send_motor_command_uart ser startWb
         (-DEFAULT_DRIVE_SPEED) (-DEFAULT_DRIVE_SPEED)).2) := by
    simp [backward, hnle, hf, hfail]
  have h3 : left ser startWb stopWb deg =
      (.response ⟨"Error", "Failed to start: " ++
         (send_motor_command_uart ser startWb (-(3/10)) (3/10)).1.message,
         500⟩,
       (send_motor_command_uart ser startWb (-(3/10)) (3/10)).2) := by
    simp [left, hf, hfail]
  have h4 : right ser startWb stopWb deg =
      (.response ⟨"Error", "Failed to start: " ++
         (send_motor_command_uart ser startWb (3/10) (-(3/10))).1.message,
         500⟩,
       (send_motor_command_uart ser startWb (3/10) (-(3/10))).2) := by
    simp [right, hf, hfail]
  refine ⟨⟨_, h1⟩, ⟨_, h2⟩, ⟨_, h3⟩, ⟨_, h4⟩, ?_, ?_, ?_, ?_⟩
  · rw [h1]
    exact noHoldNoStop_send ser startWb _ _ (by norm_num [DEFAULT_DRIVE_SPEED])
  · rw [h2]
    exact noHoldNoStop_send ser startWb _ _ (by norm_num [DEFAULT_DRIVE_SPEED])
  · rw [h3]
    exact noHoldNoStop_send ser startWb _ _ (by norm_num)
  · rw [h4]
    exact noHoldNoStop_send ser startWb _ _ (by norm_num)

/-- C5 witness: on an open channel whose start write raises
`serial.SerialException`, `Forward(10)` aborts with the start failure, its
trace holding only the failed start attempt. -/
theorem C5_start_failure_aborts_witness :
    (0 : ℤ) < 10 ∧ sendSucceeds (some ⟨true⟩) (.serialExc "boom") = false ∧
    (∃ m, forward (some ⟨true⟩) (.serialExc "boom") .ok 10 =
       (.response ⟨"Error", "Failed to start: " ++ m, 500⟩,
        (send_motor_command_uart (some ⟨true⟩) (.serialExc "boom")
          DEFAULT_DRIVE_SPEED DEFAULT_DRIVE_SPEED).2)) ∧
    noHoldNoStop (forward (some ⟨true⟩) (.serialExc "boom") .ok 10).2 := by
  have h := C5_start_failure_aborts (some ⟨true⟩) (.serialExc "boom") .ok
    10 0 (by decide) rfl
  exact ⟨by decide, rfl, h.1, h.2.2.2.2.1⟩

/-- C6: for every timed motion request (`forward`, `backward`, `left`,
`right`), if the start send succeeds but the stop send fails, the handler
answers HTTP 500 with the distinct "Failed to stop: ..." message, and the
prior successful start write is still present in the trace (followed by the
hold and the failed stop attempt). -/
theorem C6_stop_failure_reported (ser : Option SerialPort)
    (stopWb : WriteOutcome) (d deg : ℤ) (hd : 0 < d) (hdeg : 0 ≤ deg)
    (hopen : portOpen ser = true)
    (hstop : sendSucceeds ser stopWb = false) :
    (∃ m, forward ser .ok stopWb d =
       (.response ⟨"Error", "Failed to stop: " ++ m, 500⟩,
        [.uartWrite DEFAULT_DRIVE_SPEED DEFAULT_DRIVE_SPEED,
         .sleep ((d : ℚ) / ROBOT_SPEED_CM_PER_SECOND),
         .uartWrite 0 0])) ∧
    (∃ m, backward ser .ok stopWb d =
       (.response ⟨"Error", "Failed to stop: " ++ m, 500⟩,
        [.uartWrite (-DEFAULT_DRIVE_SPEED) (-DEFAULT_DRIVE_SPEED),
         .sleep ((d : ℚ) / ROBOT_SPEED_CM_PER_SECOND),
         .uartWrite 0 0])) ∧
    (∃ m, left ser .ok stopWb deg =
       (.response ⟨"Error", "Failed to stop: " ++ m, 500⟩,
        [.uartWrite (-(3/10)) (3/10),
         .sleep ((deg : ℚ) * (65/100 / 90)),
         .uartWrite 0 0])) ∧
    (∃ m, right ser .ok stopWb deg =
       (.response ⟨"Error", "Failed to stop: " ++ m, 500⟩,
        [.uartWrite (3/10) (-(3/10)),
         .sleep ((deg : ℚ) * (65/100 / 90)),
         .uartWrite 0 0])) ∧
    Event.uartWrite DEFAULT_DRIVE_SPEED DEFAULT_DRIVE_SPEED ∈
      (forward ser .ok stopWb d).2 ∧
    Event.uartWrite (-DEFAULT_DRIVE_SPEED) (-DEFAULT_DRIVE_SPEED) ∈
      (backward ser .ok stopWb d).2 ∧
    Event.uartWrite (-(3/10)) (3/10) ∈ (left ser .ok stopWb deg).2 ∧
    Event.uartWrite (3/10) (-(3/10)) ∈ (right ser .ok stopWb deg).2 := by
  have hnle : ¬ d ≤ 0 := not_le.mpr hd
  have hdur : ¬ ((d : ℚ) / ROBOT_SPEED_CM_PER_SECOND < 0) := by
    rw [not_lt]
    apply div_nonneg
    · exact_mod_cast hd.le
    · norm_num [ROBOT_SPEED_CM_PER_SECOND]
  have hdurT : ¬ ((deg : ℚ) * (65/100 / 90) < 0) := by
    rw [not_lt]
    apply mul_nonneg
    · exact_mod_cast hdeg
    · norm_num
  have hstart1 : (send_motor_command_uart ser .ok
      DEFAULT_DRIVE_SPEED DEFAULT_DRIVE_SPEED).1.success = true := by
    rw [send_success_eq]
    simp [sendSucceeds, hopen]
  have hstart2 : (send_motor_command_uart ser .ok
      (3/10) (-(3/10))).1.success = true := by
    rw [send_success_eq]
    simp [sendSucceeds, hopen]
  have hstart3 : (send_motor_command_uart ser .ok
      (-DEFAULT_DRIVE_SPEED) (-DEFAULT_DRIVE_SPEED)).1.success = true := by
    rw [send_success_eq]
    simp [sendSucceeds, hopen]
  have hstart4 : (send_motor_command_uart ser .ok
      (-(3/10)) (3/10)).1.success = true := by
    rw [send_success_eq]
    simp [sendSucceeds, hopen]
  have hstopf : (send_motor_command_uart ser stopWb 0 0).1.success =
      false := by
    rw [send_success_eq]
    exact hstop
  have hsnd1 : (send_motor_command_uart ser .ok
      DEFAULT_DRIVE_SPEED DEFAULT_DRIVE_SPEED).2 =
      [.uartWrite DEFAULT_DRIVE_SPEED DEFAULT_DRIVE_SPEED] := by
    rw [send_snd, hopen]
    simp
  have hsnd2 : (send_motor_command_uart ser .ok (3/10) (-(3/10))).2 =
      [.uartWrite (3/10) (-(3/10))] := by
    rw [send_snd, hopen]
    simp
  have hsnd3 : (send_motor_command_uart ser .ok
      (-DEFAULT_DRIVE_SPEED) (-DEFAULT_DRIVE_SPEED)).2 =
      [.uartWrite (-DEFAULT_DRIVE_SPEED) (-DEFAULT_DRIVE_SPEED)] := by
    rw [send_snd, hopen]
    simp
  have hsnd4 : (send_motor_command_uart ser .ok (-(3/10)) (3/10)).2 =
      [.uartWrite (-(3/10)) (3/10)] := by
    rw [send_snd, hopen]
    simp
  have hsndS : (send_motor_command_uart ser stopWb 0 0).2 =
      [.uartWrite 0 0] := by
    rw [send_snd, hopen]
    simp
  have h1 : forward ser .ok stopWb d =
      (.response ⟨"Error", "Failed to stop: " ++
         (send_motor_command_uart ser stopWb 0 0).1.message, 500⟩,
       [.uartWrite DEFAULT_DRIVE_SPEED DEFAULT_DRIVE_SPEED,
        .sleep ((d : ℚ) / ROBOT_SPEED_CM_PER_SECOND),
        .uartWrite 0 0]) := by
    simp [forward, hnle, hdur, hstart1, hstopf, hsnd1, hsndS]
  have h2 : backward ser .ok stopWb d =
      (.response ⟨"Error", "Failed to stop: " ++
         (send_motor_command_uart ser stopWb 0 0).1.message, 500⟩,
       [.uartWrite (-DEFAULT_DRIVE_SPEED) (-DEFAULT_DRIVE_SPEED),
        .sleep ((d : ℚ) / ROBOT_SPEED_CM_PER_SECOND),
        .uartWrite 0 0]) := by
    simp [backward, hnle, hdur, hstart3, hstopf, hsnd3, hsndS]
  have h3 : left ser .ok stopWb deg =
      (.response ⟨"Error", "Failed to stop: " ++
         (send_motor_command_uart ser stopWb 0 0).1.message, 500⟩,
       [.uartWrite (-(3/10)) (3/10),
        .sleep ((deg : ℚ) * (65/100 / 90)),
        .uartWrite 0 0]) := by
    simp [left, hdurT, hstart4, hstopf, hsnd4, hsndS]
  have h4 : right ser .ok stopWb deg =
      (.response ⟨"Error", "Failed to stop: " ++
         (send_motor_command_uart ser stopWb 0 0).1.message, 500⟩,
       [.uartWrite (3/10) (-(3/10)),
        .sleep ((deg : ℚ) * (65/100 / 90)),
        .uartWrite 0 0]) := by
    simp [right, hdurT, hstart2, hstopf, hsnd2, hsndS]
  refine ⟨⟨_, h1⟩, ⟨_, h2⟩, ⟨_, h3⟩, ⟨_, h4⟩, ?_, ?_, ?_, ?_⟩
  · rw [h1]
    simp
  · rw [h2]
    simp
  · rw [h3]
    simp
  · rw [h4]
    simp

/-- C6 witness: `Forward(25)`, `Backward(25)`, `TurnLeft(90)` and
`TurnRight(90)` on an open channel whose stop write raises
`serial.SerialException` answer with the distinct "Failed to stop" error
while the start write stays in the trace. -/
theorem C6_stop_failure_reported_witness :
    (0 : ℤ) < 25 ∧ (0 : ℤ) ≤ 90 ∧ portOpen (some ⟨true⟩) = true ∧
    sendSucceeds (some ⟨true⟩) (.serialExc "io") = false ∧
    (∃ m, forward (some ⟨true⟩) .ok (.serialExc "io") 25 =
       (.response ⟨"Error", "Failed to stop: " ++ m, 500⟩,
        [.uartWrite DEFAULT_DRIVE_SPEED DEFAULT_DRIVE_SPEED,
         .sleep (((25 : ℤ) : ℚ) / ROBOT_SPEED_CM_PER_SECOND),
         .uartWrite 0 0])) ∧
    (∃ m, backward (some ⟨true⟩) .ok (.serialExc "io") 25 =
       (.response ⟨"Error", "Failed to stop: " ++ m, 500⟩,
        [.uartWrite (-DEFAULT_DRIVE_SPEED) (-DEFAULT_DRIVE_SPEED),
         .sleep (((25 : ℤ) : ℚ) / ROBOT_SPEED_CM_PER_SECOND),
         .uartWrite 0 0])) ∧
    (∃ m, left (some ⟨true⟩) .ok (.serialExc "io") 90 =
       (.response ⟨"Error", "Failed to stop: " ++ m, 500⟩,
        [.uartWrite (-(3/10)) (3/10),
         .sleep (((90 : ℤ) : ℚ) * (65/100 / 90)),
         .uartWrite 0 0])) ∧
    (∃ m, right (some ⟨true⟩) .ok (.serialExc "io") 90 =
       (.response ⟨"Error", "Failed to stop: " ++ m, 500⟩,
        [.uartWrite (3/10) (-(3/10)),
         .sleep (((90 : ℤ) : ℚ) * (65/100 / 90)),
         .uartWrite 0 0])) ∧
    Event.uartWrite DEFAULT_DRIVE_SPEED DEFAULT_DRIVE_SPEED ∈
      (forward (some ⟨true⟩) .ok (.serialExc "io") 25).2 := by
  have h := C6_stop_failure_reported (some ⟨true⟩) (.serialExc "io") 25 90
    (by decide) (by decide) rfl rfl
  exact ⟨by decide, by decide, rfl, rfl, h.1, h.2.1, h.2.2.1, h.2.2.2.1,
    h.2.2.2.2.1⟩

/-- C7 counterexample: the bytes actually written for the command (0.3, 0.3)
are `json.dumps` output with Python's default separators — a space follows
each colon and comma — so they differ from the compact byte sequence the
claim states. -/
theorem C7_counterexample :
    commandBytes (3/10) (3/10) =
      "\x7b\"T\": \"1\", \"L\": 0.3, \"R\": 0.3\x7d\n" ∧
    commandBytes (3/10) (3/10) ≠
      "\x7b\"T\":\"1\",\"L\":0.3,\"R\":0.3\x7d\n" := by
  have h : pyFloatRepr (3/10) = "0.3" := by norm_num [pyFloatRepr]
  constructor <;>
    simp only [commandBytes, commandJson, jsonDumps, List.map, dumpAtom,
      commaJoin, h] <;>
    decide

/-- C7 (amended): `send_motor_command_uart` serializes every wheel command
(L, R) into the single line
`\x7b"T": "1", "L": <float>, "R": <float>\x7d` followed by one newline
(Python `json.dumps` default separators put a space after each colon and
comma), and writes it with a single write call: on an open channel the trace
of a send is exactly one `uartWrite` event, whose bytes are `commandBytes`. -/
theorem C7_wire_format_single_write (ser : Option SerialPort)
    (wb : WriteOutcome) (l r : ℚ) (hopen : portOpen ser = true) :
    commandBytes l r =
      "\x7b\"T\": \"1\", \"L\": " ++ (pyFloatRepr l ++ (", \"R\": " ++
        (pyFloatRepr r ++ "\x7d\n"))) ∧
    (send_motor_command_uart ser wb l r).2 = [.uartWrite l r] := by
  have hl : pyFloatRepr l = "0.3" ∨ pyFloatRepr l = "-0.3" ∨
      pyFloatRepr l = "0.0" ∨ pyFloatRepr l = "?" := by
    unfold pyFloatRepr
    split_ifs <;> simp
  have hr : pyFloatRepr r = "0.3" ∨ pyFloatRepr r = "-0.3" ∨
      pyFloatRepr r = "0.0" ∨ pyFloatRepr r = "?" := by
    unfold pyFloatRepr
    split_ifs <;> simp
  constructor
  · rcases hl with h | h | h | h <;> rcases hr with h2 | h2 | h2 | h2 <;>
      simp only [commandBytes, commandJson, jsonDumps, List.map, dumpAtom,
        commaJoin, h, h2] <;>
      decide
  · rw [send_snd, hopen]
    simp

/-- C7 witness: the concrete bytes for the start command (0.3, 0.3) on an
open channel, written in one write call. -/
theorem C7_wire_format_single_write_witness :
    portOpen (some ⟨true⟩) = true ∧
    commandBytes (3/10) (3/10) =
      "\x7b\"T\": \"1\", \"L\": " ++ (pyFloatRepr (3/10) ++ (", \"R\": " ++
        (pyFloatRepr (3/10) ++ "\x7d\n"))) ∧
    (send_motor_command_uart (some ⟨true⟩) .ok (3/10) (3/10)).2 =
      [.uartWrite (3/10) (3/10)] := by
  have h := C7_wire_format_single_write (some ⟨true⟩) .ok (3/10) (3/10) rfl
  exact ⟨rfl, h.1, h.2⟩

/-- C8: if the channel was never opened (`ser is None`) or is not open, every
motion endpoint fails fast: the send itself returns
`(False, "Serial port not open.")` without any write, and `forward`,
`backward`, `left`, `right` and `stop` all answer HTTP 500 with an empty
trace — no bytes written, no retry. -/
theorem C8_transport_unavailable_fails_fast (ser : Option SerialPort)
    (wb swb twb : WriteOutcome) (l r : ℚ) (d deg : ℤ) (hd : 0 < d)
    (hclosed : portOpen ser = false) :
    send_motor_command_uart ser wb l r =
      (⟨false, "Serial port not open."⟩, []) ∧
    forward ser swb twb d =
      (.response ⟨"Error", "Failed to start: Serial port not open.", 500⟩,
       []) ∧
    backward ser swb twb d =
      (.response ⟨"Error", "Failed to start: Serial port not open.", 500⟩,
       []) ∧
    left ser swb twb deg =
      (.response ⟨"Error", "Failed to start: Serial port not open.", 500⟩,
       []) ∧
    right ser swb twb deg =
      (.response ⟨"Error", "Failed to start: Serial port not open.", 500⟩,
       []) ∧
    stop ser wb =
      (.response ⟨"Error", "Serial port not open.", 500⟩, []) := by
  have hnle : ¬ d ≤ 0 := not_le.mpr hd
  refine ⟨?_, ?_, ?_, ?_, ?_, ?_⟩ <;>
    simp [send_motor_command_uart, forward, backward, left, right, stop,
      hclosed, hnle]

/-- C8 witness: with `ser = None`, a direct send fails without bytes and
`Forward(10)` answers HTTP 500 with an empty trace. -/
theorem C8_transport_unavailable_fails_fast_witness :
    (0 : ℤ) < 10 ∧ portOpen (none : Option SerialPort) = false ∧
    send_motor_command_uart none .ok (3/10) (3/10) =
      (⟨false, "Serial port not open."⟩, []) ∧
    forward none .ok .ok 10 =
      (.response ⟨"Error", "Failed to start: Serial port not open.", 500⟩,
       []) ∧
    stop none .ok =
      (.response ⟨"Error", "Serial port not open.", 500⟩, []) := by
  have h := C8_transport_unavailable_fails_fast none .ok .ok .ok (3/10)
    (3/10) 10 0 (by decide) rfl
  exact ⟨by decide, rfl, h.1, h.2.1, h.2.2.2.2.2⟩

/-- C9: the shutdown cleanup is idempotent: running it on the state it just
produced changes nothing and emits no events, and on an already-closed or
never-opened channel a single run is already a no-op (the guard
`if ser and ser.is_open` means `ser.close()` is never reached, so no error
can arise). -/
theorem C9_cleanup_idempotent (s : Option SerialPort) :
    cleanup_serial (cleanup_serial s).1 = ((cleanup_serial s).1, []) ∧
    (portOpen s = false → cleanup_serial s = (s, [])) := by
  match s with
  | none => simp [cleanup_serial, portOpen]
  | some ⟨b⟩ => cases b <;> simp [cleanup_serial, portOpen]

/-- C9 witness: on an already-closed port, cleanup is a no-op. -/
theorem C9_cleanup_idempotent_witness :
    portOpen (some ⟨false⟩) = false ∧
    cleanup_serial (some ⟨false⟩) = (some ⟨false⟩, []) :=
  ⟨rfl, (C9_cleanup_idempotent (some ⟨false⟩)).2 rfl⟩

/-- C10: `send_motor_command_uart` is total and never propagates an
exception: for every channel state, write outcome and speed pair it returns a
`(success, message)` pair, with `(true, "OK")` exactly when the port is open
and the write does not raise, and otherwise `false` together with one of the
three handled messages (port not open / `serial.SerialException` mapped to
"Serial communication error: ..." / any other exception mapped to
"Unexpected error: ..."). -/
theorem C10_send_total_never_raises (ser : Option SerialPort)
    (wb : WriteOutcome) (l r : ℚ) :
    (sendSucceeds ser wb = true ∧
       (send_motor_command_uart ser wb l r).1 = ⟨true, "OK"⟩) ∨
    (sendSucceeds ser wb = false ∧
       (send_motor_command_uart ser wb l r).1.success = false ∧
       ((send_motor_command_uart ser wb l r).1.message =
          "Serial port not open." ∨
        (∃ e, wb = .serialExc e ∧
           (send_motor_command_uart ser wb l r).1.message =
             "Serial communication error: " ++ e) ∨
        (∃ e, wb = .otherExc e ∧
           (send_motor_command_uart ser wb l r).1.message =
             "Unexpected error: " ++ e))) := by
  cases h : portOpen ser <;> cases wb <;>
    simp [send_motor_command_uart, sendSucceeds, h]

end Server
